import Mathlib

/-!
Verification of the AdaPay payment-transaction reconciliation logic
(`models/payment.py` of the ada-payment-module repository).

The embedding models the `payment.transaction` record extended by the
module, the inbound gateway payloads, and the four routines the testable
properties speak about:

* `_adapay_webhook_feedback`            (status reconciliation),
* `_adapay_webhook_transaction_feedback` (transaction-history merge),
* `_process_payment_data`               (polling reconciliation),
* `_get_processing_info`                (render-time payload, expiration timer).

Modelling conventions:

* Python strings are `String`; timestamps handled only as opaque strings
  (`updateTime`, `adapay_last_updated`) stay `String`.
* `datetime` values are modelled as integer seconds (`Int`); a Python
  `timedelta(minutes = m)` is `60 * m` seconds, and for a non-negative
  timedelta of `t` whole seconds the `.seconds` attribute is `t % 86400`
  (the seconds component after removing whole days).
* Python floats produced by the lovelace conversion are modelled as `Rat`
  (every value in play is an integer divided by 1000000, exact in `Rat`).
* The text field `adapay_transaction_history` holds a JSON document.  The
  model stores its parse outcome: `some ledger` for text that
  `json.loads` parses to a string-keyed mapping, `none` for text on which
  `json.loads` raises `JSONDecodeError`.  `json.dumps` of a mapping
  parses back to itself, so a write of `dumps m` is modelled as `some m`.
* ORM side effects that the source performs (`message_post` audit notes
  on linked sale orders, and the host platform's transaction-state
  setters) are recorded in an explicit event list.
-/

namespace AdaPay

/-- One entry of the transaction-history ledger: the per-hash record the
source stores (the inbound dict after its `amount` field was converted
from lovelace to ADA). -/
structure TxRecord where
  hash : String
  amount : Rat
  updateTime : String
deriving Repr, DecidableEq

/-- The transaction-history ledger: a JSON object mapping transaction
hash to record, modelled as an insertion-ordered association list with
unique keys (Python `dict` semantics). -/
abbrev Ledger := List (String × TxRecord)

/-- Python `dict` assignment `d[k] = v`: replace the binding in place if
the key is present, otherwise append it at the end. -/
def ledgerInsert (l : Ledger) (k : String) (v : TxRecord) : Ledger :=
  match l with
  | [] => [(k, v)]
  | (k', v') :: rest =>
    if k' = k then (k, v) :: rest else (k', v') :: ledgerInsert rest k v

/-- Side effects of the reconciliation routines, in program order:
`message_post` audit notes on a linked sale order (one constructor per
posting site) and the host platform's transaction-state transitions. -/
inductive Event where
  | salePaymentNote (sale : String)
  | saleTxNote (sale : String)
  | setDone
  | setPending
  | setCancel
deriving Repr, DecidableEq

/-- The `payment.transaction` record, restricted to the fields the
modelled routines read or write.  `state` is the host platform's local
status field; `create_date` is the creation timestamp in seconds;
`sale_order_ids` are the linked sale orders (by identifier);
`adapay_transaction_history` is the parse outcome of the stored ledger
text (see the module docstring). -/
structure Tx where
  state : String
  sale_order_ids : List String
  create_date : Int
  adapay_uuid : String
  adapay_amount : Rat
  adapay_total_amount_sent : Rat
  adapay_total_amount_left : Rat
  adapay_expiration_minutes : Int
  adapay_last_updated : String
  adapay_status : String
  adapay_substatus : String
  adapay_address : String
  adapay_transaction_history : Option Ledger
deriving Repr, DecidableEq

/-- Inbound status payload consumed by `_adapay_webhook_feedback`:
`{status, confirmedAmount, pendingAmount, updateTime, subStatus}`.
Amounts are in lovelace (integers). -/
structure FeedbackData where
  status : String
  confirmedAmount : Int
  pendingAmount : Int
  updateTime : String
  subStatus : String
deriving Repr, DecidableEq

/-- Inbound per-hash transaction payload consumed by
`_adapay_webhook_transaction_feedback`: `{hash, amount, updateTime}`,
the amount in lovelace. -/
structure TxData where
  hash : String
  amount : Int
  updateTime : String
deriving Repr, DecidableEq

/-- Polled payment payload consumed by `_process_payment_data`: the
status fields of `FeedbackData` plus the `transactions` list. -/
structure PaymentData extends FeedbackData where
  transactions : List TxData
deriving Repr, DecidableEq

/-- Modelled from the spec: `lovelace_to_ada` lives in
`connectors/adapay` which is not part of the provided sources; the spec
fixes the conversion as 1 ADA = 1,000,000 lovelace. -/
def lovelace_to_ada (x : Int) : Rat := (x : Rat) / 1000000

/-- Modelled from the spec: the host platform's
`_set_transaction_done` drives the local status to `done`. -/
def set_transaction_done (tx : Tx) : Tx := { tx with state := "done" }

/-- Modelled from the spec: the host platform's
`_set_transaction_pending` drives the local status to `pending`. -/
def set_transaction_pending (tx : Tx) : Tx := { tx with state := "pending" }

/-- Modelled from the spec: the host platform's
`_set_transaction_cancel` drives the local status to `cancel`. -/
def set_transaction_cancel (tx : Tx) : Tx := { tx with state := "cancel" }

/-- Embedding of `TransactionAdapay._adapay_webhook_feedback`: write the
mirrored fields unconditionally, post an audit note to every linked sale
order, then map the external status to a local status transition guarded
by the current local state. -/
def adapay_webhook_feedback (tx : Tx) (data : FeedbackData) : Tx × List Event :=
  let status := data.status
  let tx1 : Tx := { tx with
    adapay_total_amount_sent := lovelace_to_ada data.confirmedAmount,
    adapay_total_amount_left := lovelace_to_ada data.pendingAmount,
    adapay_last_updated := data.updateTime,
    adapay_status := status,
    adapay_substatus := data.subStatus }
  let notes := tx1.sale_order_ids.map Event.salePaymentNote
  if status = "confirmed" then
    if tx1.state ≠ "done" then (set_transaction_done tx1, notes ++ [Event.setDone])
    else (tx1, notes)
  else if status ∈ ["new", "payment-sent", "pending"] then
    if tx1.state ≠ "pending" then (set_transaction_pending tx1, notes ++ [Event.setPending])
    else (tx1, notes)
  else
    if tx1.state ≠ "cancel" then (set_transaction_cancel tx1, notes ++ [Event.setCancel])
    else (tx1, notes)

/-- Embedding of `TransactionAdapay._adapay_webhook_transaction_feedback`:
parse the stored ledger (a `JSONDecodeError` yields the empty ledger),
and if the hash is absent or stored with a different `updateTime`,
convert the amount, overwrite the record and post audit notes; otherwise
do nothing. -/
def adapay_webhook_transaction_feedback (tx : Tx) (data : TxData) : Tx × List Event :=
  let transaction_history : Ledger :=
    match tx.adapay_transaction_history with
    | some h => h
    | none => []
  let proceed : Bool :=
    match List.lookup data.hash transaction_history with
    | none => true
    | some r => data.updateTime != r.updateTime
  if proceed then
    let record : TxRecord := ⟨data.hash, lovelace_to_ada data.amount, data.updateTime⟩
    let newHistory := ledgerInsert transaction_history data.hash record
    ({ tx with adapay_transaction_history := some newHistory },
     tx.sale_order_ids.map Event.saleTxNote)
  else (tx, [])

/-- The transaction-history merge of
`_adapay_webhook_transaction_feedback`, restated at the level of the
stored ledger field alone (spec §4.2's contract): used to show that
`_process_payment_data` applies the merge to every payload entry. -/
def mergeLedgerStep (oh : Option Ledger) (d : TxData) : Option Ledger :=
  let h : Ledger :=
    match oh with
    | some h => h
    | none => []
  match List.lookup d.hash h with
  | none => some (ledgerInsert h d.hash ⟨d.hash, lovelace_to_ada d.amount, d.updateTime⟩)
  | some r =>
    if d.updateTime != r.updateTime then
      some (ledgerInsert h d.hash ⟨d.hash, lovelace_to_ada d.amount, d.updateTime⟩)
    else oh

/-- One iteration of the `for transaction in payment_data["transactions"]`
loop of `_process_payment_data`: apply the transaction-history merge to
the current transaction state, accumulating the emitted events. -/
def ppd_step (acc : Tx × List Event) (t : TxData) : Tx × List Event :=
  let r := adapay_webhook_transaction_feedback acc.1 t
  (r.1, acc.2 ++ r.2)

/-- Embedding of `TransactionAdapay._process_payment_data`: run the
status reconciliation when the payload's top-level `updateTime` differs
from `adapay_last_updated`, then run the transaction-history merge on
every entry of the payload's `transactions` list. -/
def process_payment_data (tx : Tx) (payment_data : PaymentData) : Tx × List Event :=
  let fb :=
    if payment_data.updateTime ≠ tx.adapay_last_updated then
      adapay_webhook_feedback tx payment_data.toFeedbackData
    else (tx, [])
  payment_data.transactions.foldl ppd_step fb

/-- The literal `title` dictionary of `_get_processing_info`; `none` is a
`KeyError` on lookup. -/
def titleFor : String → Option String
  | "new" => some "To complete your payment, please send ADA to the address below."
  | "payment-sent" => some "Your payment was received! You payment is pending for confirmation."
  | "pending" => some "The transaction is in the process of being confirmed."
  | "confirmed" => some "The transaction is confirmed!"
  | "expired" => some "The payment request is expired. Please back to payment selection."
  | _ => none

/-- Exceptions `_get_processing_info` can raise past its own try-block:
`json.loads` on the stored history text (unguarded at this call site)
and the `title[...]` dictionary access. -/
inductive RenderError where
  | jsonDecodeError
  | keyError (k : String)
deriving Repr, DecidableEq

/-- The data `_get_processing_info` produces for the adapay branch
(fields of the rendered payload the claims speak about, plus the mutated
transaction and the recorded side effects). -/
structure ProcessingInfo where
  tx : Tx
  title : String
  adapay_expiration_seconds : Int
  return_url_cleared : Bool
  events : List Event
  history_list : List TxRecord
deriving Repr, DecidableEq

/-- Embedding of `TransactionAdapay._get_processing_info`, adapay branch.
`now` is `datetime.now()` in seconds.  `polled` is the outcome of the
polling block: `some pd` when the acquirer is in polling mode and the
gateway call returned payload `pd`; `none` when webhook mode is on or
the gateway call raised (the source swallows that exception).  Then the
expiration timer runs for external status `new` (`timedelta.seconds` is
the remainder modulo 86400), the stored history text is re-parsed
unguarded, and the title is looked up by the (possibly just mutated)
external status. -/
def get_processing_info (tx0 : Tx) (now : Int) (polled : Option PaymentData) :
    Except RenderError ProcessingInfo :=
  let polledR :=
    match polled with
    | some pd => process_payment_data tx0 pd
    | none => (tx0, [])
  let txp := polledR.1
  let timer : Tx × Int :=
    if txp.adapay_status = "new" then
      let expiration := txp.create_date + 60 * txp.adapay_expiration_minutes
      if now > expiration then ({ txp with adapay_status := "expired" }, 0)
      else (txp, (expiration - now) % 86400)
    else (txp, 0)
  let tx1 := timer.1
  match tx1.adapay_transaction_history with
  | none => Except.error RenderError.jsonDecodeError
  | some h =>
    match titleFor tx1.adapay_status with
    | none => Except.error (RenderError.keyError tx1.adapay_status)
    | some t =>
      Except.ok { tx := tx1, title := t,
                  adapay_expiration_seconds := timer.2,
                  return_url_cleared := tx1.adapay_status != "confirmed",
                  events := polledR.2,
                  history_list := h.map Prod.snd }

/-- A concrete transaction used to instantiate the theorems: fresh
adapay transaction for order `SO1`, created at time 0 with the default
15-minute expiration window and the default stored ledger text `"{}"`. -/
def baseTx : Tx :=
  { state := "draft"
    sale_order_ids := ["SO1"]
    create_date := 0
    adapay_uuid := "uuid-1"
    adapay_amount := 10
    adapay_total_amount_sent := 0
    adapay_total_amount_left := 10
    adapay_expiration_minutes := 15
    adapay_last_updated := "T0"
    adapay_status := "new"
    adapay_substatus := ""
    adapay_address := "addr1"
    adapay_transaction_history := some [] }

/-- A concrete inbound status payload with a given external status. -/
def sampleFeedback (s : String) : FeedbackData :=
  { status := s, confirmedAmount := 0, pendingAmount := 10000000,
    updateTime := "T1", subStatus := "" }

/-- The spec's example per-hash update: hash `h1`, 5,000,000 lovelace,
timestamp `T1`. -/
def exampleTxData : TxData := { hash := "h1", amount := 5000000, updateTime := "T1" }

/-- The stored ledger record the example produces: 5 ADA at `T1`. -/
def exampleRecord : TxRecord := { hash := "h1", amount := 5, updateTime := "T1" }

section Lemmas

/- Helper lemmas: field-preservation and event-shape facts about the two
webhook handlers, used to decompose `_process_payment_data`. -/

theorem webhook_feedback_status (tx : Tx) (d : FeedbackData) :
    (adapay_webhook_feedback tx d).1.adapay_status = d.status := by
  simp only [adapay_webhook_feedback, set_transaction_done, set_transaction_pending,
    set_transaction_cancel]
  repeat' split
  all_goals rfl

theorem webhook_feedback_history (tx : Tx) (d : FeedbackData) :
    (adapay_webhook_feedback tx d).1.adapay_transaction_history
      = tx.adapay_transaction_history := by
  simp only [adapay_webhook_feedback, set_transaction_done, set_transaction_pending,
    set_transaction_cancel]
  repeat' split
  all_goals rfl

theorem webhook_feedback_note_mem (tx : Tx) (d : FeedbackData) (s : String) :
    Event.salePaymentNote s ∈ (adapay_webhook_feedback tx d).2
      ↔ s ∈ tx.sale_order_ids := by
  simp only [adapay_webhook_feedback, set_transaction_done, set_transaction_pending,
    set_transaction_cancel]
  repeat' split
  all_goals simp [List.mem_map]

theorem transaction_feedback_status (tx : Tx) (d : TxData) :
    (adapay_webhook_transaction_feedback tx d).1.adapay_status = tx.adapay_status := by
  simp only [adapay_webhook_transaction_feedback]
  split
  all_goals rfl

theorem transaction_feedback_history (tx : Tx) (d : TxData) :
    (adapay_webhook_transaction_feedback tx d).1.adapay_transaction_history
      = mergeLedgerStep tx.adapay_transaction_history d := by
  simp only [adapay_webhook_transaction_feedback, mergeLedgerStep]
  cases htx : tx.adapay_transaction_history with
  | none => simp
  | some h =>
    cases hl : List.lookup d.hash h with
    | none => simp [hl]
    | some r =>
      cases hb : (d.updateTime != r.updateTime) with
      | true => simp [hl, hb]
      | false => simp [hl, hb, htx]

theorem transaction_feedback_no_payment_note (tx : Tx) (d : TxData) (s : String) :
    Event.salePaymentNote s ∉ (adapay_webhook_transaction_feedback tx d).2 := by
  simp only [adapay_webhook_transaction_feedback]
  split
  all_goals simp [List.mem_map]

theorem foldl_ppd_status (l : List TxData) (acc : Tx × List Event) :
    (l.foldl ppd_step acc).1.adapay_status = acc.1.adapay_status := by
  induction l generalizing acc with
  | nil => rfl
  | cons t l ih =>
    rw [List.foldl_cons, ih]
    simp [ppd_step, transaction_feedback_status]

theorem foldl_ppd_history (l : List TxData) (acc : Tx × List Event) :
    (l.foldl ppd_step acc).1.adapay_transaction_history
      = l.foldl mergeLedgerStep acc.1.adapay_transaction_history := by
  induction l generalizing acc with
  | nil => rfl
  | cons t l ih =>
    rw [List.foldl_cons, List.foldl_cons, ih]
    simp [ppd_step, transaction_feedback_history]

theorem foldl_ppd_note_mem (l : List TxData) (acc : Tx × List Event) (s : String) :
    Event.salePaymentNote s ∈ (l.foldl ppd_step acc).2
      ↔ Event.salePaymentNote s ∈ acc.2 := by
  induction l generalizing acc with
  | nil => exact Iff.rfl
  | cons t l ih =>
    rw [List.foldl_cons, ih]
    simp [ppd_step, transaction_feedback_no_payment_note]

end Lemmas

/-- Claim C1: for every inbound status payload with status in
{new, payment-sent, pending}, `_adapay_webhook_feedback` leaves the
transaction's local status at `pending` (driving it there when it was
different), and the pending-transition side effect
(`_set_transaction_pending`) is performed iff the local status was not
already `pending`. -/
theorem webhook_feedback_pending_statuses (tx : Tx) (d : FeedbackData)
    (hs : d.status ∈ ["new", "payment-sent", "pending"]) :
    (adapay_webhook_feedback tx d).1.state = "pending" ∧
    (Event.setPending ∈ (adapay_webhook_feedback tx d).2 ↔ tx.state ≠ "pending") := by
  simp only [List.mem_cons, List.not_mem_nil, or_false] at hs
  by_cases hst : tx.state = "pending" <;>
    rcases hs with h | h | h <;>
      simp [adapay_webhook_feedback, set_transaction_pending, h, hst, List.mem_map]

/-- Witness for C1: a fresh (local status `draft`) transaction receiving
a `payment-sent` payload. -/
theorem webhook_feedback_pending_statuses_witness :
    (adapay_webhook_feedback baseTx (sampleFeedback "payment-sent")).1.state = "pending" ∧
    (Event.setPending ∈ (adapay_webhook_feedback baseTx (sampleFeedback "payment-sent")).2
      ↔ baseTx.state ≠ "pending") :=
  webhook_feedback_pending_statuses baseTx (sampleFeedback "payment-sent") (by decide)

/-- Claim C2: a `confirmed` payload drives the local status to `done`,
and a second delivery of the same payload does not repeat the terminal
done-transition side effect: over the two deliveries
`_set_transaction_done` runs exactly once (zero times when the
transaction already was `done`). -/
theorem webhook_feedback_confirmed_done_once (tx : Tx) (d : FeedbackData)
    (hs : d.status = "confirmed") :
    (adapay_webhook_feedback tx d).1.state = "done" ∧
    ((adapay_webhook_feedback tx d).2
        ++ (adapay_webhook_feedback (adapay_webhook_feedback tx d).1 d).2).count Event.setDone
      = if tx.state = "done" then 0 else 1 := by
  have h0 : ∀ l : List String, (l.map Event.salePaymentNote).count Event.setDone = 0 :=
    fun l => List.count_eq_zero.mpr (by simp)
  by_cases hst : tx.state = "done" <;>
    simp [adapay_webhook_feedback, set_transaction_done, hs, hst,
      List.count_append, List.count_cons, h0]

/-- Witness for C2: a fresh (local status `draft`) transaction receiving
the same `confirmed` payload twice. -/
theorem webhook_feedback_confirmed_done_once_witness :
    (adapay_webhook_feedback baseTx (sampleFeedback "confirmed")).1.state = "done" ∧
    ((adapay_webhook_feedback baseTx (sampleFeedback "confirmed")).2
        ++ (adapay_webhook_feedback
              (adapay_webhook_feedback baseTx (sampleFeedback "confirmed")).1
              (sampleFeedback "confirmed")).2).count Event.setDone
      = if baseTx.state = "done" then 0 else 1 :=
  webhook_feedback_confirmed_done_once baseTx (sampleFeedback "confirmed") (by decide)

/-- Claim C3: for every inbound payload whose status is neither
`confirmed` nor in {new, payment-sent, pending} (`expired` included),
`_adapay_webhook_feedback` leaves the local status at `cancel` (driving
it there when it was different), performing the cancel transition iff
the local status was not already `cancel`. -/
theorem webhook_feedback_fallback_cancel (tx : Tx) (d : FeedbackData)
    (h1 : d.status ≠ "confirmed")
    (h2 : d.status ∉ ["new", "payment-sent", "pending"]) :
    (adapay_webhook_feedback tx d).1.state = "cancel" ∧
    (Event.setCancel ∈ (adapay_webhook_feedback tx d).2 ↔ tx.state ≠ "cancel") := by
  by_cases hst : tx.state = "cancel" <;>
    simp [adapay_webhook_feedback, set_transaction_cancel, h1, h2, hst, List.mem_map]

/-- Witness for C3: a fresh (local status `draft`) transaction receiving
an `expired` payload. -/
theorem webhook_feedback_fallback_cancel_witness :
    (adapay_webhook_feedback baseTx (sampleFeedback "expired")).1.state = "cancel" ∧
    (Event.setCancel ∈ (adapay_webhook_feedback baseTx (sampleFeedback "expired")).2
      ↔ baseTx.state ≠ "cancel") :=
  webhook_feedback_fallback_cancel baseTx (sampleFeedback "expired") (by decide) (by decide)

/-- Claim C4: `_process_payment_data` applies the status
reconciliation (`_adapay_webhook_feedback`) iff the payload's top-level
`updateTime` differs from the stored `adapay_last_updated` — witnessed
by the resulting external status and by the reconciliation's audit
notes — and applies the transaction-history merge to every entry of the
`transactions` list regardless of that comparison: the final ledger is
the merge folded over the whole list. -/
theorem process_payment_data_phases (tx : Tx) (p : PaymentData) :
    ((process_payment_data tx p).1.adapay_status
      = if p.updateTime ≠ tx.adapay_last_updated then p.status else tx.adapay_status) ∧
    ((process_payment_data tx p).1.adapay_transaction_history
      = p.transactions.foldl mergeLedgerStep tx.adapay_transaction_history) ∧
    (∀ s, Event.salePaymentNote s ∈ (process_payment_data tx p).2
      ↔ (p.updateTime ≠ tx.adapay_last_updated ∧ s ∈ tx.sale_order_ids)) := by
  unfold process_payment_data
  by_cases hc : p.updateTime = tx.adapay_last_updated
  · simp only [hc, ne_eq, not_true_eq_false, if_false, ite_false]
    refine ⟨?_, ?_, fun s => ?_⟩
    · rw [foldl_ppd_status]
    · rw [foldl_ppd_history]
    · rw [foldl_ppd_note_mem]
      simp
  · simp only [hc, ne_eq, not_false_eq_true, if_true, ite_true]
    refine ⟨?_, ?_, fun s => ?_⟩
    · rw [foldl_ppd_status]
      exact webhook_feedback_status tx p.toFeedbackData
    · rw [foldl_ppd_history, webhook_feedback_history]
    · rw [foldl_ppd_note_mem, webhook_feedback_note_mem]
      simp [hc]

/-- Claim C5: replaying a per-hash update whose hash is already stored
with the same `updateTime` is a no-op: the transaction (its stored
ledger included) is unchanged and no audit note is posted. -/
theorem transaction_feedback_idempotent (tx : Tx) (d : TxData) (h : Ledger) (r : TxRecord)
    (hh : tx.adapay_transaction_history = some h)
    (hl : List.lookup d.hash h = some r)
    (ht : r.updateTime = d.updateTime) :
    adapay_webhook_transaction_feedback tx d = (tx, []) := by
  simp [adapay_webhook_transaction_feedback, hh, hl, ht]

/-- Witness for C5: replaying the example update against a ledger that
already stores hash `h1` at timestamp `T1`. -/
theorem transaction_feedback_idempotent_witness :
    adapay_webhook_transaction_feedback
        { baseTx with adapay_transaction_history := some [("h1", exampleRecord)] }
        exampleTxData
      = ({ baseTx with adapay_transaction_history := some [("h1", exampleRecord)] }, []) :=
  transaction_feedback_idempotent
    { baseTx with adapay_transaction_history := some [("h1", exampleRecord)] }
    exampleTxData [("h1", exampleRecord)] exampleRecord rfl (by decide) rfl

/-- Claim C6: when the stored ledger text does not parse
(`JSONDecodeError`), `_adapay_webhook_transaction_feedback` treats it as
an empty ledger and completes the merge normally: the new ledger holds
exactly the incoming record and the audit notes are posted, no failure
is propagated (the embedding of the handler is a total function). -/
theorem transaction_feedback_malformed_ledger (tx : Tx) (d : TxData)
    (hh : tx.adapay_transaction_history = none) :
    (adapay_webhook_transaction_feedback tx d).1.adapay_transaction_history
      = some [(d.hash, { hash := d.hash, amount := lovelace_to_ada d.amount,
                         updateTime := d.updateTime })] ∧
    (adapay_webhook_transaction_feedback tx d).2
      = tx.sale_order_ids.map Event.saleTxNote := by
  simp [adapay_webhook_transaction_feedback, hh, ledgerInsert]

/-- Witness for C6: a transaction whose stored ledger text is malformed
receiving the example update. -/
theorem transaction_feedback_malformed_ledger_witness :
    (adapay_webhook_transaction_feedback
        { baseTx with adapay_transaction_history := none } exampleTxData).1.adapay_transaction_history
      = some [(exampleTxData.hash,
               { hash := exampleTxData.hash, amount := lovelace_to_ada exampleTxData.amount,
                 updateTime := exampleTxData.updateTime })] ∧
    (adapay_webhook_transaction_feedback
        { baseTx with adapay_transaction_history := none } exampleTxData).2
      = { baseTx with adapay_transaction_history := none }.sale_order_ids.map Event.saleTxNote :=
  transaction_feedback_malformed_ledger
    { baseTx with adapay_transaction_history := none } exampleTxData rfl

/-- Claim C7: with stored ledger `{}` and inbound update
`{hash: "h1", amount: 5000000, updateTime: "T1"}`, the merge stores the
record under key `"h1"` with the amount converted at
1 ADA = 1,000,000 lovelace: the ledger becomes
`{"h1": {hash: "h1", amount: 5.0, updateTime: "T1"}}`. -/
theorem transaction_feedback_lovelace_example :
    (adapay_webhook_transaction_feedback baseTx exampleTxData).1.adapay_transaction_history
      = some [("h1", { hash := "h1", amount := 5, updateTime := "T1" })] := by
  norm_num [adapay_webhook_transaction_feedback, ledgerInsert, lovelace_to_ada,
    baseTx, exampleTxData]

/-- Claim C8: reading `_get_processing_info` on a transaction whose
external status is `new`, strictly later than creation time plus the
expiration window (no polling payload intervening), forces the external
status to `expired` as a side effect of the read and reports the expired
title. -/
theorem processing_info_expires_new (tx : Tx) (now : Int) (h : Ledger)
    (hh : tx.adapay_transaction_history = some h)
    (hs : tx.adapay_status = "new")
    (hexp : tx.create_date + 60 * tx.adapay_expiration_minutes < now) :
    (get_processing_info tx now none).map (fun i => (i.tx.adapay_status, i.title))
      = Except.ok ("expired",
          "The payment request is expired. Please back to payment selection.") := by
  simp [get_processing_info, hs, hh, hexp, titleFor, Except.map]

/-- Witness for C8: the spec's example — created at time 0 with a
15-minute window, queried 16 minutes later (time 960). -/
theorem processing_info_expires_new_witness :
    (get_processing_info baseTx 960 none).map (fun i => (i.tx.adapay_status, i.title))
      = Except.ok ("expired",
          "The payment request is expired. Please back to payment selection.") :=
  processing_info_expires_new baseTx 960 [] rfl rfl (by decide)

/-- Claim C9 (amended): for a transaction with external status `new`
whose expiration time has not yet passed, `_get_processing_info` reports
`adapay_expiration_seconds` equal to the seconds component of the
remaining time — the remaining seconds modulo 86400, whole days
dropped — which coincides with the full number of remaining seconds
exactly when less than one day remains. -/
theorem processing_info_countdown_mod_day (tx : Tx) (now : Int) (h : Ledger)
    (hh : tx.adapay_transaction_history = some h)
    (hs : tx.adapay_status = "new")
    (hexp : now ≤ tx.create_date + 60 * tx.adapay_expiration_minutes) :
    (get_processing_info tx now none).map (fun i => i.adapay_expiration_seconds)
      = Except.ok ((tx.create_date + 60 * tx.adapay_expiration_minutes - now) % 86400) ∧
    (tx.create_date + 60 * tx.adapay_expiration_minutes - now < 86400 →
      (get_processing_info tx now none).map (fun i => i.adapay_expiration_seconds)
        = Except.ok (tx.create_date + 60 * tx.adapay_expiration_minutes - now)) := by
  have hmod : (get_processing_info tx now none).map (fun i => i.adapay_expiration_seconds)
      = Except.ok ((tx.create_date + 60 * tx.adapay_expiration_minutes - now) % 86400) := by
    simp [get_processing_info, hs, hh, not_lt.mpr hexp, titleFor, Except.map]
  refine ⟨hmod, fun hlt => ?_⟩
  rw [hmod, Int.emod_eq_of_lt (by omega) hlt]

/-- Witness for C9 (amended): the base transaction (15-minute window)
queried 100 seconds after creation: 800 seconds remain, less than a
day, so the reported countdown is exactly 800. -/
theorem processing_info_countdown_mod_day_witness :
    ((get_processing_info baseTx 100 none).map (fun i => i.adapay_expiration_seconds)
      = Except.ok ((baseTx.create_date + 60 * baseTx.adapay_expiration_minutes - 100) % 86400)) ∧
    (baseTx.create_date + 60 * baseTx.adapay_expiration_minutes - 100 < 86400 →
      (get_processing_info baseTx 100 none).map (fun i => i.adapay_expiration_seconds)
        = Except.ok (baseTx.create_date + 60 * baseTx.adapay_expiration_minutes - 100)) :=
  processing_info_countdown_mod_day baseTx 100 [] rfl rfl (by decide)

/-- Counterexample to Claim C9 as stated: a transaction created at time
0 with a 1441-minute expiration window (one day plus one minute),
queried at creation time while still `new`, has 86460 seconds remaining
but reports `adapay_expiration_seconds = 60`, because Python's
`timedelta.seconds` drops the whole-day component. -/
theorem processing_info_countdown_counterexample :
    ((get_processing_info { baseTx with adapay_expiration_minutes := 1441 } 0 none).map
        (fun i => i.adapay_expiration_seconds) = Except.ok 60) ∧
    ({ baseTx with adapay_expiration_minutes := 1441 }.create_date
        + 60 * { baseTx with adapay_expiration_minutes := 1441 }.adapay_expiration_minutes - 0
      = 86460) ∧
    (60 : Int) ≠ 86460 := by
  refine ⟨?_, by norm_num [baseTx], by norm_num⟩
  norm_num [get_processing_info, baseTx, titleFor, Except.map]

/-- Claim C10: if a transaction's `adapay_status` holds any value
outside {new, payment-sent, pending, confirmed, expired} — possible
because `_adapay_webhook_feedback` stores the gateway-reported status
verbatim — then `_get_processing_info` fails with a lookup error
(`KeyError`) at the `title` dictionary access instead of returning a
display payload. -/
theorem processing_info_unknown_status_keyerror (tx : Tx) (now : Int) (h : Ledger)
    (d : FeedbackData)
    (hh : tx.adapay_transaction_history = some h)
    (hs : tx.adapay_status ∉ ["new", "payment-sent", "pending", "confirmed", "expired"]) :
    get_processing_info tx now none
      = Except.error (RenderError.keyError tx.adapay_status) ∧
    (adapay_webhook_feedback tx d).1.adapay_status = d.status := by
  refine ⟨?_, webhook_feedback_status tx d⟩
  have hnew : ¬ tx.adapay_status = "new" := by
    intro hcon
    simp [hcon] at hs
  have htitle : titleFor tx.adapay_status = none := by
    unfold titleFor
    split
    all_goals simp_all
  simp [get_processing_info, hnew, hh, htitle]

/-- Witness for C10: a transaction whose external status is the
gateway-stored verbatim value `cancelled`, which is not a `title`
key. -/
theorem processing_info_unknown_status_keyerror_witness :
    get_processing_info { baseTx with adapay_status := "cancelled" } 0 none
      = Except.error (RenderError.keyError
          { baseTx with adapay_status := "cancelled" }.adapay_status) ∧
    (adapay_webhook_feedback { baseTx with adapay_status := "cancelled" }
        (sampleFeedback "canceled")).1.adapay_status = (sampleFeedback "canceled").status :=
  processing_info_unknown_status_keyerror { baseTx with adapay_status := "cancelled" } 0 []
    (sampleFeedback "canceled") rfl (by decide)

end AdaPay
